import Mathlib

/-!
Verification development for the prstar PGA library
(src/public/prstar/prstar.hpp).

The library packs a 16-coefficient P(R,3,0,1) multivector into up to four
4-lane SIMD partitions selected by a 4-bit presence mask.  We model a SIMD
lane (a 32-bit float) as an exact rational number: every operation the
claims are about (copying, negation, lane-wise add/sub dispatch, mask
computation) is structural, so the rational model is faithful to the
data movement of the source.

Partition lane layout (prstar.hpp lines 25-29), lanes listed low to high:
  p0: (e3, e2, e1, e0)
  p1: (1, e12, e31, e23)
  p2: (e0123, e01, e02, e03)
  p3: (e123, e021, e013, e032)
-/

namespace prs

/-- One SIMD partition: 4 packed lanes (union partition, lines 39-43).
Lane i of the C source is the array entry data[i]. -/
structure partition where
  d0 : ℚ
  d1 : ℚ
  d2 : ℚ
  d3 : ℚ
deriving DecidableEq

/-- Indexed lane read, mirroring data[i] of the C union.  Out-of-range
indices (never used by the source on well-formed entities) read 0. -/
def partition.data (p : partition) : Nat → ℚ
  | 0 => p.d0
  | 1 => p.d1
  | 2 => p.d2
  | 3 => p.d3
  | _ => 0

/-- The intrinsic _mm_set1_ps: broadcast one value to all 4 lanes. -/
def mm_set1_ps (a : ℚ) : partition := ⟨a, a, a, a⟩

/-- The intrinsic _mm_set_ps(a,b,c,d): lanes low to high are (d,c,b,a). -/
def mm_set_ps (a b c d : ℚ) : partition := ⟨d, c, b, a⟩

/-- The intrinsic _mm_add_ps: lane-wise sum. -/
def mm_add_ps (x y : partition) : partition :=
  ⟨x.d0 + y.d0, x.d1 + y.d1, x.d2 + y.d2, x.d3 + y.d3⟩

/-- The intrinsic _mm_sub_ps: lane-wise difference. -/
def mm_sub_ps (x y : partition) : partition :=
  ⟨x.d0 - y.d0, x.d1 - y.d1, x.d2 - y.d2, x.d3 - y.d3⟩

/-- The intrinsic _mm_mul_ps: lane-wise product. -/
def mm_mul_ps (x y : partition) : partition :=
  ⟨x.d0 * y.d0, x.d1 * y.d1, x.d2 * y.d2, x.d3 * y.d3⟩

/-- _mm_xor_ps with _mm_set1_ps(-0.0) flips the IEEE sign bit of every
lane, i.e. negates all 4 lanes (used by subtraction, line 646-647). -/
def mm_neg_ps (x : partition) : partition := ⟨-x.d0, -x.d1, -x.d2, -x.d3⟩

/-- The all-zero partition, _mm_set1_ps(0.f); also the default value our
model returns for a read of a partition slot that is out of range. -/
def part0 : partition := mm_set1_ps 0

/-- C truth test on an integer value: nonzero means true. -/
def nz (n : Nat) : Bool := n != 0

/-- partition_count (lines 55-57): number of materialized partitions. -/
def partition_count (PMask : Nat) : Nat :=
  (PMask &&& 1) + ((PMask >>> 1) &&& 0b1) + ((PMask >>> 2) &&& 1)
    + ((PMask >>> 3) &&& 1)

/-- partition_offsets (lines 58-62): index of logical slot i inside the
packed storage array. -/
def partition_offsets (PMask : Nat) : Nat → Nat
  | 0 => 0
  | 1 => PMask &&& 1
  | 2 => (PMask &&& 1) + ((PMask >>> 1) &&& 1)
  | _ => (PMask &&& 1) + ((PMask >>> 1) &&& 1) + ((PMask >>> 2) &&& 1)

/-- A masked entity (struct entity, lines 49-693): its 4-bit presence mask
and the packed list of materialized partitions, stored contiguously in
ascending slot order.  The C type makes the mask a template parameter; we
carry it as data. -/
structure entity where
  pmask : Nat
  parts : List partition
deriving DecidableEq

/-- Well-formedness of an entity: a 4-bit mask and exactly
partition_count materialized partitions. -/
def entity.wf (e : entity) : Prop :=
  e.pmask < 16 ∧ e.parts.length = partition_count e.pmask

/-- Accessor p0() (lines 539-542): reads parts[partition_offsets[0]]. -/
def entity.p0 (e : entity) : partition :=
  e.parts.getD (partition_offsets e.pmask 0) part0

/-- Accessor p1() (lines 544-547). -/
def entity.p1 (e : entity) : partition :=
  e.parts.getD (partition_offsets e.pmask 1) part0

/-- Accessor p2() (lines 549-552). -/
def entity.p2 (e : entity) : partition :=
  e.parts.getD (partition_offsets e.pmask 2) part0

/-- Accessor p3() (lines 554-557). -/
def entity.p3 (e : entity) : partition :=
  e.parts.getD (partition_offsets e.pmask 3) part0

/-- Uniform read of logical slot i, the generalization of p0()..p3():
parts[partition_offsets[i]]. -/
def entity.slot (e : entity) (i : Nat) : partition :=
  e.parts.getD (partition_offsets e.pmask i) part0

/-- Whether logical slot i is materialized: bit i of the presence mask. -/
def entity.hasSlot (e : entity) (i : Nat) : Bool :=
  nz (e.pmask &&& (1 <<< i))

/-- One iteration of the add_sub loop body (lines 612-651) for bit value m.
State: the output partitions written so far, then the running lhs_offset
and rhs_offset counters.  parts[offset] reads become list reads at the
counter index. -/
def add_sub_step (Add : Bool) (lhs rhs : entity)
    (st : List partition × Nat × Nat) (m : Nat) :
    List partition × Nat × Nat :=
  let out := st.1
  let lhs_offset := st.2.1
  let rhs_offset := st.2.2
  if nz (lhs.pmask &&& m) then
    if nz (rhs.pmask &&& m) then
      (out ++ [(if Add then mm_add_ps else mm_sub_ps)
          (lhs.parts.getD lhs_offset part0) (rhs.parts.getD rhs_offset part0)],
       lhs_offset + 1, rhs_offset + 1)
    else
      (out ++ [lhs.parts.getD lhs_offset part0], lhs_offset + 1, rhs_offset)
  else
    if nz (rhs.pmask &&& m) then
      (out ++ [if Add then rhs.parts.getD rhs_offset part0
               else mm_neg_ps (rhs.parts.getD rhs_offset part0)],
       lhs_offset, rhs_offset + 1)
    else
      (out, lhs_offset, rhs_offset)

/-- add_sub, const-lvalue overload (lines 603-654): result mask is the
union of the operand masks; the loop walks m over the four bit values in
ascending order, combining, copying, or negate-copying each slot. -/
def add_sub (Add : Bool) (lhs rhs : entity) : entity :=
  { pmask := lhs.pmask ||| rhs.pmask,
    parts := ([1, 2, 4, 8].foldl (add_sub_step Add lhs rhs) ([], 0, 0)).1 }

/-- One iteration of the in-place rvalue add_sub loop body (lines
666-682): only bits of the rhs mask trigger work, and the receiver-side
index offset is incremented only on those bits. -/
def add_sub_rvalue_step (Add : Bool) (rhs : entity)
    (st : List partition × Nat × Nat) (m : Nat) :
    List partition × Nat × Nat :=
  let parts := st.1
  let offset := st.2.1
  let rhs_offset := st.2.2
  if nz (rhs.pmask &&& m) then
    (parts.set offset ((if Add then mm_add_ps else mm_sub_ps)
        (parts.getD offset part0) (rhs.parts.getD rhs_offset part0)),
     offset + 1, rhs_offset + 1)
  else
    (parts, offset, rhs_offset)

/-- add_sub, rvalue overload (lines 658-692): when the union mask equals
the receiver mask the receiver storage is mutated in place and returned;
otherwise it delegates to the const-lvalue overload. -/
def add_sub_rvalue (Add : Bool) (lhs rhs : entity) : entity :=
  if lhs.pmask ||| rhs.pmask = lhs.pmask then
    { pmask := lhs.pmask,
      parts := ([1, 2, 4, 8].foldl (add_sub_rvalue_step Add rhs)
          (lhs.parts, 0, 0)).1 }
  else
    add_sub Add lhs rhs

/-- Reversion, operator~ (lines 101-119): starts from a copy of the
receiver, then overwrites p1 and p2 with a lane-wise product against
_mm_set_ps(-1,-1,-1,1) (lane 0 kept, lanes 1-3 negated) and p3 with a
product against _mm_set1_ps(-1) (all lanes negated), each only when the
corresponding mask bit is present. -/
def reverse (e : entity) : entity :=
  let out := e
  let out :=
    if nz (e.pmask &&& 0b10) then
      { out with
        parts := out.parts.set (partition_offsets e.pmask 1)
          (mm_mul_ps e.p1 (mm_set_ps (-1) (-1) (-1) 1)) }
    else out
  let out :=
    if nz (e.pmask &&& 0b100) then
      { out with
        parts := out.parts.set (partition_offsets e.pmask 2)
          (mm_mul_ps e.p2 (mm_set_ps (-1) (-1) (-1) 1)) }
    else out
  let out :=
    if nz (e.pmask &&& 0b1000) then
      { out with
        parts := out.parts.set (partition_offsets e.pmask 3)
          (mm_mul_ps e.p3 (mm_set1_ps (-1))) }
    else out
  out

/-- Kernel result carrying partitions destined for slots p1 and p2
(struct p1p2 of detail/prstar_gp.hpp, as used by the dispatcher). -/
structure p1p2 where
  p1 : partition
  p2 : partition

/-- Kernel result carrying partitions destined for slots p0 and p3
(struct p0p3 of detail/prstar_gp.hpp, as used by the dispatcher). -/
structure p0p3 where
  p0 : partition
  p3 : partition

/-- Modelled from the spec: the fifteen partition-pair kernels gp00..gp33
live in detail/prstar_gp.hpp, which is not among the sources; the spec
treats them as black-box bilinear maps, each with the fixed output-slot
signature the dispatcher in operator* relies on.  We therefore
parameterize the product by an arbitrary kernel collection with exactly
those signatures (no gp22 exists: the dispatcher has no p2-with-p2 call
site). -/
structure GPKernels where
  gp00 : partition → partition → p1p2
  gp01 : partition → partition → p0p3
  gp02 : partition → partition → p0p3
  gp03 : partition → partition → p1p2
  gp10 : partition → partition → p0p3
  gp11 : partition → partition → partition
  gp12 : partition → partition → partition
  gp13 : partition → partition → p0p3
  gp20 : partition → partition → p0p3
  gp21 : partition → partition → partition
  gp23 : partition → partition → p0p3
  gp30 : partition → partition → p1p2
  gp31 : partition → partition → p0p3
  gp32 : partition → partition → p0p3
  gp33 : partition → partition → p1p2

/-- The four running accumulators p0_, p1_, p2_, p3_ of operator*
(lines 128-131). -/
structure GPAcc where
  a0 : partition
  a1 : partition
  a2 : partition
  a3 : partition

/-- Output-mask bit p0_set of operator* (lines 233-236). -/
def p0_set (M1 M2 : Nat) : Bool :=
  (nz (M1 &&& 1) && nz (M2 &&& 0b110)) || (nz (M1 &&& 0b110) && nz (M2 &&& 1))
    || (nz (M1 &&& 0b10) && nz (M2 &&& 0b1000))
    || (nz (M1 &&& 0b1000) && nz (M2 &&& 0b10))

/-- Output-mask bit p1_set of operator* (lines 237-238).  The source
tests PMask against the decimal literal 1001, not the binary 0b1001; we
keep the decimal literal.  (For the 4-bit masks that actually occur the
two agree, since 1001 mod 16 = 9.) -/
def p1_set (M1 M2 : Nat) : Bool :=
  (nz (M1 &&& 1001) && nz (M2 &&& 0b1001)) || (nz (M1 &&& 0b10) && nz (M2 &&& 0b10))

/-- Output-mask bit p2_set of operator* (lines 239-241), with the same
decimal 1001 literal as in the source. -/
def p2_set (M1 M2 : Nat) : Bool :=
  (nz (M1 &&& 1001) && nz (M2 &&& 0b1001)) || (nz (M1 &&& 0b10) && nz (M2 &&& 0b100))
    || (nz (M1 &&& 0b100) && nz (M2 &&& 0b10))

/-- Output-mask bit p3_set of operator* (lines 242-243). -/
def p3_set (M1 M2 : Nat) : Bool :=
  (nz (M1 &&& 0b110) && nz (M2 &&& 0b1001))
    || (nz (M1 &&& 0b1001) && nz (M2 &&& 0b110))

/-- out_mask of operator* (lines 244-245). -/
def out_mask (M1 M2 : Nat) : Nat :=
  ((p3_set M1 M2).toNat <<< 3) ||| ((p2_set M1 M2).toNat <<< 2)
    ||| ((p1_set M1 M2).toNat <<< 1) ||| (p0_set M1 M2).toNat

/-- The PMask-bit-0 block of operator* (lines 133-159).  The first two
sub-branches assign the accumulators directly as in the source; the last
two accumulate. -/
def gp_block0 (K : GPKernels) (lhs rhs : entity) (acc : GPAcc) : GPAcc :=
  if nz (lhs.pmask &&& 1) then
    let acc :=
      if nz (rhs.pmask &&& 1) then
        let r := K.gp00 lhs.p0 rhs.p0
        { acc with a1 := r.p1, a2 := r.p2 }
      else acc
    let acc :=
      if nz (rhs.pmask &&& 0b10) then
        let r := K.gp01 lhs.p0 rhs.p1
        { acc with a0 := r.p0, a3 := r.p3 }
      else acc
    let acc :=
      if nz (rhs.pmask &&& 0b100) then
        let r := K.gp02 lhs.p0 rhs.p2
        { acc with a0 := mm_add_ps acc.a0 r.p0, a3 := mm_add_ps acc.a3 r.p3 }
      else acc
    let acc :=
      if nz (rhs.pmask &&& 0b1000) then
        let r := K.gp03 lhs.p0 rhs.p3
        { acc with a1 := mm_add_ps acc.a1 r.p1, a2 := mm_add_ps acc.a2 r.p2 }
      else acc
    acc
  else acc

/-- The PMask-bit-1 block of operator* (lines 161-183). -/
def gp_block1 (K : GPKernels) (lhs rhs : entity) (acc : GPAcc) : GPAcc :=
  if nz (lhs.pmask &&& 0b10) then
    let acc :=
      if nz (rhs.pmask &&& 1) then
        let r := K.gp10 lhs.p1 rhs.p0
        { acc with a0 := mm_add_ps acc.a0 r.p0, a3 := mm_add_ps acc.a3 r.p3 }
      else acc
    let acc :=
      if nz (rhs.pmask &&& 0b10) then
        { acc with a1 := mm_add_ps acc.a1 (K.gp11 lhs.p1 rhs.p1) }
      else acc
    let acc :=
      if nz (rhs.pmask &&& 0b100) then
        { acc with a2 := mm_add_ps acc.a2 (K.gp12 lhs.p1 rhs.p2) }
      else acc
    let acc :=
      if nz (rhs.pmask &&& 0b1000) then
        let r := K.gp13 lhs.p1 rhs.p3
        { acc with a0 := mm_add_ps acc.a0 r.p0, a3 := mm_add_ps acc.a3 r.p3 }
      else acc
    acc
  else acc

/-- The PMask-bit-2 block of operator* (lines 185-203).  Note there is no
sub-branch for rhs bit 2: the dispatcher never forms a p2-with-p2
product. -/
def gp_block2 (K : GPKernels) (lhs rhs : entity) (acc : GPAcc) : GPAcc :=
  if nz (lhs.pmask &&& 0b100) then
    let acc :=
      if nz (rhs.pmask &&& 1) then
        let r := K.gp20 lhs.p2 rhs.p0
        { acc with a0 := mm_add_ps acc.a0 r.p0, a3 := mm_add_ps acc.a3 r.p3 }
      else acc
    let acc :=
      if nz (rhs.pmask &&& 0b10) then
        { acc with a2 := mm_add_ps acc.a2 (K.gp21 lhs.p2 rhs.p1) }
      else acc
    let acc :=
      if nz (rhs.pmask &&& 0b1000) then
        let r := K.gp23 lhs.p2 rhs.p3
        { acc with a0 := mm_add_ps acc.a0 r.p0, a3 := mm_add_ps acc.a3 r.p3 }
      else acc
    acc
  else acc

/-- The PMask-bit-3 block of operator* (lines 205-231). -/
def gp_block3 (K : GPKernels) (lhs rhs : entity) (acc : GPAcc) : GPAcc :=
  if nz (lhs.pmask &&& 0b1000) then
    let acc :=
      if nz (rhs.pmask &&& 1) then
        let r := K.gp30 lhs.p3 rhs.p0
        { acc with a1 := mm_add_ps acc.a1 r.p1, a2 := mm_add_ps acc.a2 r.p2 }
      else acc
    let acc :=
      if nz (rhs.pmask &&& 0b10) then
        let r := K.gp31 lhs.p3 rhs.p1
        { acc with a0 := mm_add_ps acc.a0 r.p0, a3 := mm_add_ps acc.a3 r.p3 }
      else acc
    let acc :=
      if nz (rhs.pmask &&& 0b100) then
        let r := K.gp32 lhs.p3 rhs.p2
        { acc with a0 := mm_add_ps acc.a0 r.p0, a3 := mm_add_ps acc.a3 r.p3 }
      else acc
    let acc :=
      if nz (rhs.pmask &&& 0b1000) then
        let r := K.gp33 lhs.p3 rhs.p3
        { acc with a1 := mm_add_ps acc.a1 r.p1, a2 := mm_add_ps acc.a2 r.p2 }
      else acc
    acc
  else acc

/-- Geometric product, operator* (lines 122-265): run the four dispatch
blocks over zero-initialized accumulators, then materialize exactly the
slots whose out-mask bit is set, packed in ascending slot order. -/
def gp (K : GPKernels) (lhs rhs : entity) : entity :=
  let acc : GPAcc := ⟨part0, part0, part0, part0⟩
  let acc := gp_block0 K lhs rhs acc
  let acc := gp_block1 K lhs rhs acc
  let acc := gp_block2 K lhs rhs acc
  let acc := gp_block3 K lhs rhs acc
  { pmask := out_mask lhs.pmask rhs.pmask,
    parts :=
      (if p0_set lhs.pmask rhs.pmask then [acc.a0] else [])
        ++ (if p1_set lhs.pmask rhs.pmask then [acc.a1] else [])
        ++ (if p2_set lhs.pmask rhs.pmask then [acc.a2] else [])
        ++ (if p3_set lhs.pmask rhs.pmask then [acc.a3] else []) }

/-- The ordered list of slot pairs (i, j) whose kernel gp_ij the
dispatcher of operator* invokes for operand masks M1, M2, transcribed
branch for branch from lines 133-231.  The pair (2, 2) has no branch in
the source and hence never appears. -/
def gp_calls (M1 M2 : Nat) : List (Nat × Nat) :=
  (if nz (M1 &&& 1) then
     (if nz (M2 &&& 1) then [(0, 0)] else [])
       ++ (if nz (M2 &&& 0b10) then [(0, 1)] else [])
       ++ (if nz (M2 &&& 0b100) then [(0, 2)] else [])
       ++ (if nz (M2 &&& 0b1000) then [(0, 3)] else [])
   else [])
    ++ (if nz (M1 &&& 0b10) then
          (if nz (M2 &&& 1) then [(1, 0)] else [])
            ++ (if nz (M2 &&& 0b10) then [(1, 1)] else [])
            ++ (if nz (M2 &&& 0b100) then [(1, 2)] else [])
            ++ (if nz (M2 &&& 0b1000) then [(1, 3)] else [])
        else [])
    ++ (if nz (M1 &&& 0b100) then
          (if nz (M2 &&& 1) then [(2, 0)] else [])
            ++ (if nz (M2 &&& 0b10) then [(2, 1)] else [])
            ++ (if nz (M2 &&& 0b1000) then [(2, 3)] else [])
        else [])
    ++ (if nz (M1 &&& 0b1000) then
          (if nz (M2 &&& 1) then [(3, 0)] else [])
            ++ (if nz (M2 &&& 0b10) then [(3, 1)] else [])
            ++ (if nz (M2 &&& 0b100) then [(3, 2)] else [])
            ++ (if nz (M2 &&& 0b1000) then [(3, 3)] else [])
        else [])

/-- Accessor scalar() (lines 275-285). -/
def entity.scalar (e : entity) : ℚ :=
  if nz (e.pmask &&& 0b10) then
    (e.parts.getD (partition_offsets e.pmask 1) part0).data 0
  else 0

/-- Accessor e0() (lines 287-297). -/
def entity.e0 (e : entity) : ℚ :=
  if nz (e.pmask &&& 1) then
    (e.parts.getD (partition_offsets e.pmask 0) part0).data 3
  else 0

/-- Accessor e1() (lines 299-309). -/
def entity.e1 (e : entity) : ℚ :=
  if nz (e.pmask &&& 1) then
    (e.parts.getD (partition_offsets e.pmask 0) part0).data 2
  else 0

/-- Accessor e2() (lines 311-321). -/
def entity.e2 (e : entity) : ℚ :=
  if nz (e.pmask &&& 1) then
    (e.parts.getD (partition_offsets e.pmask 0) part0).data 1
  else 0

/-- Accessor e3() (lines 323-333). -/
def entity.e3 (e : entity) : ℚ :=
  if nz (e.pmask &&& 1) then
    (e.parts.getD (partition_offsets e.pmask 0) part0).data 0
  else 0

/-- Accessor e12() (lines 335-345). -/
def entity.e12 (e : entity) : ℚ :=
  if nz (e.pmask &&& 0b10) then
    (e.parts.getD (partition_offsets e.pmask 1) part0).data 1
  else 0

/-- Accessor e21() (lines 347-357). -/
def entity.e21 (e : entity) : ℚ :=
  if nz (e.pmask &&& 0b10) then
    -(e.parts.getD (partition_offsets e.pmask 1) part0).data 1
  else 0

/-- Accessor e31() (lines 359-369). -/
def entity.e31 (e : entity) : ℚ :=
  if nz (e.pmask &&& 0b10) then
    (e.parts.getD (partition_offsets e.pmask 1) part0).data 2
  else 0

/-- Accessor e13() (lines 371-381). -/
def entity.e13 (e : entity) : ℚ :=
  if nz (e.pmask &&& 0b10) then
    -(e.parts.getD (partition_offsets e.pmask 1) part0).data 2
  else 0

/-- Accessor e23() (lines 383-393). -/
def entity.e23 (e : entity) : ℚ :=
  if nz (e.pmask &&& 0b10) then
    (e.parts.getD (partition_offsets e.pmask 1) part0).data 3
  else 0

/-- Accessor e32() (lines 395-405). -/
def entity.e32 (e : entity) : ℚ :=
  if nz (e.pmask &&& 0b10) then
    -(e.parts.getD (partition_offsets e.pmask 1) part0).data 3
  else 0

/-- Accessor e01() (lines 407-417). -/
def entity.e01 (e : entity) : ℚ :=
  if nz (e.pmask &&& 0b100) then
    (e.parts.getD (partition_offsets e.pmask 2) part0).data 1
  else 0

/-- Accessor e10() (lines 419-429). -/
def entity.e10 (e : entity) : ℚ :=
  if nz (e.pmask &&& 0b100) then
    -(e.parts.getD (partition_offsets e.pmask 2) part0).data 1
  else 0

/-- Accessor e02() (lines 431-441). -/
def entity.e02 (e : entity) : ℚ :=
  if nz (e.pmask &&& 0b100) then
    (e.parts.getD (partition_offsets e.pmask 2) part0).data 2
  else 0

/-- Accessor e20() (lines 443-453). -/
def entity.e20 (e : entity) : ℚ :=
  if nz (e.pmask &&& 0b100) then
    -(e.parts.getD (partition_offsets e.pmask 2) part0).data 2
  else 0

/-- Accessor e03() (lines 455-465). -/
def entity.e03 (e : entity) : ℚ :=
  if nz (e.pmask &&& 0b100) then
    (e.parts.getD (partition_offsets e.pmask 2) part0).data 3
  else 0

/-- Accessor e30() (lines 467-477). -/
def entity.e30 (e : entity) : ℚ :=
  if nz (e.pmask &&& 0b100) then
    -(e.parts.getD (partition_offsets e.pmask 2) part0).data 3
  else 0

/-- Accessor e123() (lines 479-489). -/
def entity.e123 (e : entity) : ℚ :=
  if nz (e.pmask &&& 0b1000) then
    (e.parts.getD (partition_offsets e.pmask 3) part0).data 0
  else 0

/-- Accessor e021() (lines 491-501). -/
def entity.e021 (e : entity) : ℚ :=
  if nz (e.pmask &&& 0b1000) then
    (e.parts.getD (partition_offsets e.pmask 3) part0).data 1
  else 0

/-- Accessor e013() (lines 503-513). -/
def entity.e013 (e : entity) : ℚ :=
  if nz (e.pmask &&& 0b1000) then
    (e.parts.getD (partition_offsets e.pmask 3) part0).data 2
  else 0

/-- Accessor e032() (lines 515-525). -/
def entity.e032 (e : entity) : ℚ :=
  if nz (e.pmask &&& 0b1000) then
    (e.parts.getD (partition_offsets e.pmask 3) part0).data 3
  else 0

/-- Accessor e0123() (lines 527-537). -/
def entity.e0123 (e : entity) : ℚ :=
  if nz (e.pmask &&& 0b100) then
    (e.parts.getD (partition_offsets e.pmask 2) part0).data 0
  else 0

/-- The direction three-coordinate constructor (lines 829-832):
parts[0] = _mm_set_ps(x, y, z, 0), an entity with only slot p3. -/
def direction_mk3 (x y z : ℚ) : entity :=
  { pmask := 0b1000, parts := [mm_set_ps x y z 0] }

/-- The direction conversion constructor from a general p3-only entity
(lines 834-842): simply copies the entity; no failure path exists. -/
def direction_of_entity (e : entity) : entity :=
  { pmask := 0b1000, parts := e.parts }

/-- The validation predicate of the PRSTAR_VALIDATE-gated assert inside
the direction conversion constructor (lines 838-841): the homogeneous
lane parts[0].data[0] must satisfy data0 less than 1e-7 and greater than
-1e-7.  The float literal 1e-7 is modelled as the exact rational
1/10000000.  The assert aborts exactly when this predicate is false and
is compiled out entirely when PRSTAR_VALIDATE is not defined. -/
def direction_validate_ok (e : entity) : Bool :=
  decide ((e.parts.getD 0 part0).data 0 < 1 / 10000000)
    && decide ((e.parts.getD 0 part0).data 0 > -(1 / 10000000))

/-- direction operator[] (lines 844-847): reads parts[0].data[3 - i]. -/
def direction_subscript (d : entity) (i : Nat) : ℚ :=
  (d.parts.getD 0 part0).data (3 - i)

/-- direction x() (lines 854-857): parts[0].data[3]. -/
def direction_x (d : entity) : ℚ := (d.parts.getD 0 part0).data 3

/-- direction y() (lines 859-862): parts[0].data[2]. -/
def direction_y (d : entity) : ℚ := (d.parts.getD 0 part0).data 2

/-- direction z() (lines 864-867): parts[0].data[1]. -/
def direction_z (d : entity) : ℚ := (d.parts.getD 0 part0).data 1

/-!  Spec-side definitions.  The following definitions transcribe the
wording of the specification (not the source); they exist to be compared
against the source-derived definitions above. -/

/-- Spec formula for the p0 bit of the product output mask:
(M1.p0 and M2.(p1 or p2)) or (M1.(p1 or p2) and M2.p0) or
(M1.p1 and M2.p3) or (M1.p3 and M2.p1). -/
def spec_p0_set (M1 M2 : Nat) : Bool :=
  (nz (M1 &&& 0b0001) && nz (M2 &&& 0b0110))
    || (nz (M1 &&& 0b0110) && nz (M2 &&& 0b0001))
    || (nz (M1 &&& 0b0010) && nz (M2 &&& 0b1000))
    || (nz (M1 &&& 0b1000) && nz (M2 &&& 0b0010))

/-- Spec formula for the p1 bit of the product output mask:
(M1.(p0 or p3) and M2.(p0 or p3)) or (M1.p1 and M2.p1). -/
def spec_p1_set (M1 M2 : Nat) : Bool :=
  (nz (M1 &&& 0b1001) && nz (M2 &&& 0b1001))
    || (nz (M1 &&& 0b0010) && nz (M2 &&& 0b0010))

/-- Spec formula for the p2 bit of the product output mask:
(M1.(p0 or p3) and M2.(p0 or p3)) or (M1.p1 and M2.p2) or
(M1.p2 and M2.p1). -/
def spec_p2_set (M1 M2 : Nat) : Bool :=
  (nz (M1 &&& 0b1001) && nz (M2 &&& 0b1001))
    || (nz (M1 &&& 0b0010) && nz (M2 &&& 0b0100))
    || (nz (M1 &&& 0b0100) && nz (M2 &&& 0b0010))

/-- Spec formula for the p3 bit of the product output mask:
(M1.(p1 or p2) and M2.(p0 or p3)) or (M1.(p0 or p3) and M2.(p1 or p2)). -/
def spec_p3_set (M1 M2 : Nat) : Bool :=
  (nz (M1 &&& 0b0110) && nz (M2 &&& 0b1001))
    || (nz (M1 &&& 0b1001) && nz (M2 &&& 0b0110))

/-- Spec-side product output mask assembled from the four bit formulas. -/
def spec_out_mask (M1 M2 : Nat) : Nat :=
  ((spec_p3_set M1 M2).toNat <<< 3) ||| ((spec_p2_set M1 M2).toNat <<< 2)
    ||| ((spec_p1_set M1 M2).toNat <<< 1) ||| (spec_p0_set M1 M2).toNat

/-- A trivial concrete kernel collection (all kernels return zero
partitions), used to instantiate kernel-parameterized theorems on a
concrete input. -/
def K0 : GPKernels where
  gp00 := fun _ _ => ⟨part0, part0⟩
  gp01 := fun _ _ => ⟨part0, part0⟩
  gp02 := fun _ _ => ⟨part0, part0⟩
  gp03 := fun _ _ => ⟨part0, part0⟩
  gp10 := fun _ _ => ⟨part0, part0⟩
  gp11 := fun _ _ => part0
  gp12 := fun _ _ => part0
  gp13 := fun _ _ => ⟨part0, part0⟩
  gp20 := fun _ _ => ⟨part0, part0⟩
  gp21 := fun _ _ => part0
  gp23 := fun _ _ => ⟨part0, part0⟩
  gp30 := fun _ _ => ⟨part0, part0⟩
  gp31 := fun _ _ => ⟨part0, part0⟩
  gp32 := fun _ _ => ⟨part0, part0⟩
  gp33 := fun _ _ => ⟨part0, part0⟩

/-- A kernel collection equal to K0 except that gp23 returns the all-ones
partition for both of its output slots; used to exhibit that the
dispatcher really invokes gp23 and routes its output into the result. -/
def K23 : GPKernels :=
  { K0 with gp23 := fun _ _ => ⟨mm_set1_ps 1, mm_set1_ps 1⟩ }

/-!  Theorems. -/

/-- Helper for claim C1: on 4-bit masks the out-mask computed by the
source (including its decimal 1001 literal) agrees with the formulas of
the specification. -/
theorem out_mask_eq_spec :
    ∀ M1 < 16, ∀ M2 < 16, out_mask M1 M2 = spec_out_mask M1 M2 := by
  decide

/-- Claim C1: for every pair of partition masks M1, M2 and any kernel
collection, the entity returned by the geometric product has its output
mask given exactly by the spec bit formulas: p0 present iff
(M1.p0 and M2.(p1 or p2)) or (M1.(p1 or p2) and M2.p0) or
(M1.p1 and M2.p3) or (M1.p3 and M2.p1); p1 present iff
(M1.(p0 or p3) and M2.(p0 or p3)) or (M1.p1 and M2.p1); p2 present iff
(M1.(p0 or p3) and M2.(p0 or p3)) or (M1.p1 and M2.p2) or
(M1.p2 and M2.p1); p3 present iff (M1.(p1 or p2) and M2.(p0 or p3)) or
(M1.(p0 or p3) and M2.(p1 or p2)). -/
theorem C1_gp_out_mask (K : GPKernels) (lhs rhs : entity)
    (h1 : lhs.pmask < 16) (h2 : rhs.pmask < 16) :
    (gp K lhs rhs).pmask = spec_out_mask lhs.pmask rhs.pmask := by
  show out_mask lhs.pmask rhs.pmask = spec_out_mask lhs.pmask rhs.pmask
  exact out_mask_eq_spec lhs.pmask h1 rhs.pmask h2

/-- Witness for claim C1 at a concrete input: a plane-masked operand
(mask 1) times a line-masked operand (mask 2). -/
theorem C1_witness :
    (⟨0b1, [mm_set_ps 0 1 0 0]⟩ : entity).pmask < 16
      ∧ (⟨0b10, [mm_set_ps 0 0 1 0]⟩ : entity).pmask < 16
      ∧ (gp K0 ⟨0b1, [mm_set_ps 0 1 0 0]⟩ ⟨0b10, [mm_set_ps 0 0 1 0]⟩).pmask
          = spec_out_mask 0b1 0b10 :=
  ⟨by decide, by decide,
    C1_gp_out_mask K0 ⟨0b1, [mm_set_ps 0 1 0 0]⟩ ⟨0b10, [mm_set_ps 0 0 1 0]⟩
      (by decide) (by decide)⟩

/-- Counterexample for claim C2: for an operand A whose mask has only p2
(mask 0b100) and an operand B whose mask has only p3 (mask 0b1000), the
dispatcher DOES invoke the kernel for the pair (2, 3), and the product
DOES allocate an output slot on account of it: with kernels that are zero
except for gp23 (which returns all-ones partitions), the result is a
p3-masked entity holding gp23's p3 output. -/
theorem C2_counterexample :
    (2, 3) ∈ gp_calls 0b100 0b1000
      ∧ gp K23 ⟨0b100, [part0]⟩ ⟨0b1000, [part0]⟩
          = ⟨0b1000, [mm_set1_ps 1]⟩ := by
  constructor
  · decide
  · norm_num [gp, gp_block0, gp_block1, gp_block2, gp_block3, out_mask,
      p0_set, p1_set, p2_set, p3_set, nz, K23, K0, mm_add_ps, mm_set1_ps,
      part0, entity.p2, entity.p3, partition_offsets]
    decide

/-- Claim C2 amended: the slot pair whose kernel call the dispatcher
omits is p2 (of A) with p2 (of B), not p2 with p3: for every pair of
4-bit partition masks no (2, 2) kernel call is ever made, and when A's
mask has only p2 and B's mask has only p2 no kernel at all is invoked
and no output slot is allocated (empty output mask, no partitions). -/
theorem C2_amended_p2p2_empty (K : GPKernels) (lhs rhs : entity)
    (h1 : lhs.pmask = 0b100) (h2 : rhs.pmask = 0b100) :
    (∀ M1 < 16, ∀ M2 < 16, (2, 2) ∉ gp_calls M1 M2)
      ∧ gp_calls lhs.pmask rhs.pmask = []
      ∧ (gp K lhs rhs).pmask = 0
      ∧ (gp K lhs rhs).parts = [] := by
  refine ⟨by decide, ?_, ?_, ?_⟩
  · rw [h1, h2]; decide
  · show out_mask lhs.pmask rhs.pmask = 0
    rw [h1, h2]; decide
  · simp [gp, h1, h2]
    decide

/-- Witness for the amended claim C2 at a concrete input: two
ideal-line-masked operands, with the zero kernel collection. -/
theorem C2_amended_witness :
    (⟨0b100, [part0]⟩ : entity).pmask = 0b100
      ∧ ((∀ M1 < 16, ∀ M2 < 16, (2, 2) ∉ gp_calls M1 M2)
          ∧ gp_calls (⟨0b100, [part0]⟩ : entity).pmask
              (⟨0b100, [part0]⟩ : entity).pmask = []
          ∧ (gp K0 ⟨0b100, [part0]⟩ ⟨0b100, [part0]⟩).pmask = 0
          ∧ (gp K0 ⟨0b100, [part0]⟩ ⟨0b100, [part0]⟩).parts = []) :=
  ⟨rfl, C2_amended_p2p2_empty K0 ⟨0b100, [part0]⟩ ⟨0b100, [part0]⟩ rfl rfl⟩


/-- The partitions a single add_sub loop iteration appends for bit value
m, given the running operand offsets (read off the branch structure of
lines 612-651). -/
def contrib (Add : Bool) (lhs rhs : entity) (m lo ro : Nat) : List partition :=
  if nz (lhs.pmask &&& m) then
    if nz (rhs.pmask &&& m) then
      [(if Add then mm_add_ps else mm_sub_ps)
        (lhs.parts.getD lo part0) (rhs.parts.getD ro part0)]
    else [lhs.parts.getD lo part0]
  else
    if nz (rhs.pmask &&& m) then
      [if Add then rhs.parts.getD ro part0 else mm_neg_ps (rhs.parts.getD ro part0)]
    else []

theorem add_sub_step_eq (Add : Bool) (lhs rhs : entity)
    (st : List partition × Nat × Nat) (m : Nat) :
    add_sub_step Add lhs rhs st m
      = (st.1 ++ contrib Add lhs rhs m st.2.1 st.2.2,
         st.2.1 + (nz (lhs.pmask &&& m)).toNat,
         st.2.2 + (nz (rhs.pmask &&& m)).toNat) := by
  unfold add_sub_step contrib
  cases h1 : nz (lhs.pmask &&& m) <;> cases h2 : nz (rhs.pmask &&& m) <;> simp

theorem add_sub_parts_eq (Add : Bool) (M1 M2 : Nat) (l1 l2 : List partition) :
    (add_sub Add ⟨M1, l1⟩ ⟨M2, l2⟩).parts
      = contrib Add ⟨M1, l1⟩ ⟨M2, l2⟩ 1 0 0
        ++ (contrib Add ⟨M1, l1⟩ ⟨M2, l2⟩ 2
              (nz (M1 &&& 1)).toNat (nz (M2 &&& 1)).toNat
          ++ (contrib Add ⟨M1, l1⟩ ⟨M2, l2⟩ 4
                ((nz (M1 &&& 1)).toNat + (nz (M1 &&& 2)).toNat)
                ((nz (M2 &&& 1)).toNat + (nz (M2 &&& 2)).toNat)
            ++ contrib Add ⟨M1, l1⟩ ⟨M2, l2⟩ 8
                ((nz (M1 &&& 1)).toNat + (nz (M1 &&& 2)).toNat + (nz (M1 &&& 4)).toNat)
                ((nz (M2 &&& 1)).toNat + (nz (M2 &&& 2)).toNat + (nz (M2 &&& 4)).toNat))) := by
  show ([1, 2, 4, 8].foldl (add_sub_step Add ⟨M1, l1⟩ ⟨M2, l2⟩) ([], 0, 0)).1 = _
  rw [List.foldl_cons, add_sub_step_eq, List.foldl_cons, add_sub_step_eq,
    List.foldl_cons, add_sub_step_eq, List.foldl_cons, add_sub_step_eq,
    List.foldl_nil]
  simp [List.append_assoc]

theorem nz_and_pow (M k : Nat) : nz (M &&& 2 ^ k) = M.testBit k := by
  rw [Nat.and_two_pow]
  cases h : M.testBit k <;> simp [nz, Nat.pow_eq_zero]

theorem nz_or_bit (M1 M2 k : Nat) :
    nz ((M1 ||| M2) &&& 2 ^ k) = (nz (M1 &&& 2 ^ k) || nz (M2 &&& 2 ^ k)) := by
  rw [nz_and_pow, nz_and_pow, nz_and_pow, Nat.testBit_lor]

theorem nz_or_1 (M1 M2 : Nat) :
    nz ((M1 ||| M2) &&& 1) = (nz (M1 &&& 1) || nz (M2 &&& 1)) := by
  simpa using nz_or_bit M1 M2 0

theorem nz_or_2 (M1 M2 : Nat) :
    nz ((M1 ||| M2) &&& 2) = (nz (M1 &&& 2) || nz (M2 &&& 2)) := by
  have h := nz_or_bit M1 M2 1
  norm_num at h
  exact h

theorem nz_or_4 (M1 M2 : Nat) :
    nz ((M1 ||| M2) &&& 4) = (nz (M1 &&& 4) || nz (M2 &&& 4)) := by
  have h := nz_or_bit M1 M2 2
  norm_num at h
  exact h

theorem nz_or_8 (M1 M2 : Nat) :
    nz ((M1 ||| M2) &&& 8) = (nz (M1 &&& 8) || nz (M2 &&& 8)) := by
  have h := nz_or_bit M1 M2 3
  norm_num at h
  exact h

theorem and_one_toNat (M : Nat) : M &&& 1 = (nz (M &&& 1)).toNat := by
  rw [Nat.and_one_is_mod]
  rcases Nat.mod_two_eq_zero_or_one M with h | h <;> rw [h] <;> rfl

theorem shr1_and_one_toNat (M : Nat) :
    (M >>> 1) &&& 1 = (nz (M &&& 2)).toNat := by
  have h2 : nz (M &&& 2) = M.testBit 1 := by
    have h := nz_and_pow M 1
    norm_num at h
    exact h
  rw [h2, Nat.and_one_is_mod, Nat.shiftRight_eq_div_pow,
    Nat.testBit_to_div_mod]
  rcases Nat.mod_two_eq_zero_or_one (M / 2 ^ 1) with h | h <;> rw [h] <;> rfl

theorem shr2_and_one_toNat (M : Nat) :
    (M >>> 2) &&& 1 = (nz (M &&& 4)).toNat := by
  have h2 : nz (M &&& 4) = M.testBit 2 := by
    have h := nz_and_pow M 2
    norm_num at h
    exact h
  rw [h2, Nat.and_one_is_mod, Nat.shiftRight_eq_div_pow,
    Nat.testBit_to_div_mod]
  rcases Nat.mod_two_eq_zero_or_one (M / 2 ^ 2) with h | h <;> rw [h] <;> rfl

theorem partition_offsets_toNat (M : Nat) :
    partition_offsets M 1 = (nz (M &&& 1)).toNat
    ∧ partition_offsets M 2 = (nz (M &&& 1)).toNat + (nz (M &&& 2)).toNat
    ∧ partition_offsets M 3
        = (nz (M &&& 1)).toNat + (nz (M &&& 2)).toNat + (nz (M &&& 4)).toNat := by
  refine ⟨?_, ?_, ?_⟩
  · calc partition_offsets M 1 = M &&& 1 := rfl
      _ = (nz (M &&& 1)).toNat := and_one_toNat M
  · calc partition_offsets M 2 = (M &&& 1) + ((M >>> 1) &&& 1) := rfl
      _ = (nz (M &&& 1)).toNat + (nz (M &&& 2)).toNat := by
          conv_lhs => rw [and_one_toNat M, shr1_and_one_toNat M]
  · calc partition_offsets M 3
        = (M &&& 1) + ((M >>> 1) &&& 1) + ((M >>> 2) &&& 1) := rfl
      _ = (nz (M &&& 1)).toNat + (nz (M &&& 2)).toNat + (nz (M &&& 4)).toNat := by
          conv_lhs => rw [and_one_toNat M, shr1_and_one_toNat M, shr2_and_one_toNat M]

theorem getD_contrib_skip (Add : Bool) (M1 M2 : Nat) (l1 l2 : List partition)
    (m lo ro n : Nat) (rest : List partition) :
    (contrib Add ⟨M1, l1⟩ ⟨M2, l2⟩ m lo ro ++ rest).getD
        ((nz (M1 &&& m) || nz (M2 &&& m)).toNat + n) part0
      = rest.getD n part0 := by
  unfold contrib
  cases h1 : nz (M1 &&& m) <;> cases h2 : nz (M2 &&& m) <;>
    simp_all [Nat.add_comm]

theorem getD_contrib_skip0 (Add : Bool) (M1 M2 : Nat) (l1 l2 : List partition)
    (m lo ro : Nat) (rest : List partition) :
    (contrib Add ⟨M1, l1⟩ ⟨M2, l2⟩ m lo ro ++ rest).getD
        ((nz (M1 &&& m) || nz (M2 &&& m)).toNat) part0
      = rest.getD 0 part0 :=
  getD_contrib_skip Add M1 M2 l1 l2 m lo ro 0 rest


/-- Per-slot contract of addition/subtraction used by claim C3: combined
when present in both operands, copied when only left, copied or negated
when only right, absent when absent in both. -/
def slot_spec (Add : Bool) (lhs rhs r : entity) (i : Nat) : Prop :=
  (lhs.hasSlot i = true → rhs.hasSlot i = true →
     r.slot i = (if Add then mm_add_ps else mm_sub_ps) (lhs.slot i) (rhs.slot i))
  ∧ (lhs.hasSlot i = true → rhs.hasSlot i = false → r.slot i = lhs.slot i)
  ∧ (lhs.hasSlot i = false → rhs.hasSlot i = true →
       r.slot i = (if Add then rhs.slot i else mm_neg_ps (rhs.slot i)))
  ∧ (lhs.hasSlot i = false → rhs.hasSlot i = false → r.hasSlot i = false)

theorem partition_offsets_zero (M : Nat) : partition_offsets M 0 = 0 := rfl

theorem add_sub_slot0 (Add : Bool) (M1 M2 : Nat) (l1 l2 : List partition) :
    slot_spec Add ⟨M1, l1⟩ ⟨M2, l2⟩ (add_sub Add ⟨M1, l1⟩ ⟨M2, l2⟩) 0 := by
  unfold slot_spec entity.hasSlot entity.slot
  rw [show (add_sub Add ⟨M1, l1⟩ ⟨M2, l2⟩).pmask = M1 ||| M2 from rfl,
    add_sub_parts_eq]
  simp only [show (1 : Nat) <<< 0 = 1 from rfl, partition_offsets_zero, nz_or_1]
  cases hb10 : nz (M1 &&& 1) <;> cases hb20 : nz (M2 &&& 1) <;>
    simp [contrib, hb10, hb20, -Nat.and_one_is_mod]

theorem add_sub_slot1 (Add : Bool) (M1 M2 : Nat) (l1 l2 : List partition) :
    slot_spec Add ⟨M1, l1⟩ ⟨M2, l2⟩ (add_sub Add ⟨M1, l1⟩ ⟨M2, l2⟩) 1 := by
  unfold slot_spec entity.hasSlot entity.slot
  rw [show (add_sub Add ⟨M1, l1⟩ ⟨M2, l2⟩).pmask = M1 ||| M2 from rfl,
    add_sub_parts_eq]
  simp only [show (1 : Nat) <<< 1 = 2 from rfl,
    (partition_offsets_toNat (M1 ||| M2)).1,
    (partition_offsets_toNat M1).1, (partition_offsets_toNat M2).1,
    nz_or_1, nz_or_2, Nat.add_assoc, getD_contrib_skip, getD_contrib_skip0]
  cases hb11 : nz (M1 &&& 2) <;> cases hb21 : nz (M2 &&& 2) <;>
    simp [contrib, hb11, hb21, -Nat.and_one_is_mod]

theorem add_sub_slot2 (Add : Bool) (M1 M2 : Nat) (l1 l2 : List partition) :
    slot_spec Add ⟨M1, l1⟩ ⟨M2, l2⟩ (add_sub Add ⟨M1, l1⟩ ⟨M2, l2⟩) 2 := by
  unfold slot_spec entity.hasSlot entity.slot
  rw [show (add_sub Add ⟨M1, l1⟩ ⟨M2, l2⟩).pmask = M1 ||| M2 from rfl,
    add_sub_parts_eq]
  simp only [show (1 : Nat) <<< 2 = 4 from rfl,
    (partition_offsets_toNat (M1 ||| M2)).2.1,
    (partition_offsets_toNat M1).2.1, (partition_offsets_toNat M2).2.1,
    nz_or_1, nz_or_2, nz_or_4, Nat.add_assoc,
    getD_contrib_skip, getD_contrib_skip0]
  cases hb12 : nz (M1 &&& 4) <;> cases hb22 : nz (M2 &&& 4) <;>
    simp [contrib, hb12, hb22, -Nat.and_one_is_mod]

theorem add_sub_slot3 (Add : Bool) (M1 M2 : Nat) (l1 l2 : List partition) :
    slot_spec Add ⟨M1, l1⟩ ⟨M2, l2⟩ (add_sub Add ⟨M1, l1⟩ ⟨M2, l2⟩) 3 := by
  unfold slot_spec entity.hasSlot entity.slot
  rw [show (add_sub Add ⟨M1, l1⟩ ⟨M2, l2⟩).pmask = M1 ||| M2 from rfl,
    add_sub_parts_eq]
  simp only [show (1 : Nat) <<< 3 = 8 from rfl,
    (partition_offsets_toNat (M1 ||| M2)).2.2,
    (partition_offsets_toNat M1).2.2, (partition_offsets_toNat M2).2.2,
    nz_or_1, nz_or_2, nz_or_4, nz_or_8, Nat.add_assoc,
    getD_contrib_skip, getD_contrib_skip0]
  cases hb13 : nz (M1 &&& 8) <;> cases hb23 : nz (M2 &&& 8) <;>
    simp [contrib, hb13, hb23, -Nat.and_one_is_mod]


/-- Claim C3: for all entities A (mask M1) and B (mask M2), A+B and A-B
(operator+ and operator-, which call add_sub with Add true resp. false)
return an entity of mask M1|M2, and for each of the four slots in
ascending order: a slot present in both operands holds the lane-wise sum
(resp. difference); a slot present only in the left operand is copied
unchanged; a slot present only in the right operand is copied for
addition and has all 4 lanes negated for subtraction; a slot absent in
both is absent from the result.  The first conjunct records that
mm_add_ps, mm_sub_ps and the negation really are lane-wise on all 4
lanes. -/
theorem C3_add_sub_contract (lhs rhs : entity) :
    (∀ x y : partition, ∀ l < 4,
        (mm_add_ps x y).data l = x.data l + y.data l
        ∧ (mm_sub_ps x y).data l = x.data l - y.data l
        ∧ (mm_neg_ps x).data l = -(x.data l))
    ∧ (add_sub true lhs rhs).pmask = lhs.pmask ||| rhs.pmask
    ∧ (add_sub false lhs rhs).pmask = lhs.pmask ||| rhs.pmask
    ∧ (∀ i < 4, slot_spec true lhs rhs (add_sub true lhs rhs) i)
    ∧ (∀ i < 4, slot_spec false lhs rhs (add_sub false lhs rhs) i) := by
  obtain ⟨M1, l1⟩ := lhs
  obtain ⟨M2, l2⟩ := rhs
  refine ⟨?_, rfl, rfl, ?_, ?_⟩
  · intro x y l hl
    interval_cases l <;> exact ⟨rfl, rfl, rfl⟩
  · intro i hi
    interval_cases i
    · exact add_sub_slot0 true M1 M2 l1 l2
    · exact add_sub_slot1 true M1 M2 l1 l2
    · exact add_sub_slot2 true M1 M2 l1 l2
    · exact add_sub_slot3 true M1 M2 l1 l2
  · intro i hi
    interval_cases i
    · exact add_sub_slot0 false M1 M2 l1 l2
    · exact add_sub_slot1 false M1 M2 l1 l2
    · exact add_sub_slot2 false M1 M2 l1 l2
    · exact add_sub_slot3 false M1 M2 l1 l2

/-- Witness for claim C3 at a concrete input: the slot-1 contract of the
sum of a plane-masked entity and a line-masked entity, and a concrete
lane-wise fact, both obtained by instantiating the theorem. -/
theorem C3_witness :
    ((0 : Nat) < 4
      ∧ (mm_add_ps (mm_set1_ps 1) (mm_set1_ps 2)).data 0
          = (mm_set1_ps 1).data 0 + (mm_set1_ps 2).data 0)
    ∧ ((1 : Nat) < 4
      ∧ slot_spec true ⟨0b1, [mm_set1_ps 1]⟩ ⟨0b10, [mm_set1_ps 2]⟩
          (add_sub true ⟨0b1, [mm_set1_ps 1]⟩ ⟨0b10, [mm_set1_ps 2]⟩) 1) :=
  ⟨⟨by norm_num,
    ((C3_add_sub_contract ⟨0b1, [mm_set1_ps 1]⟩ ⟨0b10, [mm_set1_ps 2]⟩).1
      (mm_set1_ps 1) (mm_set1_ps 2) 0 (by norm_num)).1⟩,
   ⟨by norm_num,
    (C3_add_sub_contract ⟨0b1, [mm_set1_ps 1]⟩ ⟨0b10, [mm_set1_ps 2]⟩).2.2.2.1 1
      (by norm_num)⟩⟩

/-- Claim C4: for every well-formed entity, reversion returns an entity
of the same mask in which slot p0 is entirely unchanged, slots p1 and p2
each have lane 0 unchanged and lanes 1 to 3 negated, slot p3 has all 4
lanes negated, and absent slots remain absent (the presence of every
slot is preserved). -/
theorem C4_reverse_grades (e : entity) (h : e.wf) :
    (reverse e).pmask = e.pmask
    ∧ (e.hasSlot 0 = true → (reverse e).slot 0 = e.slot 0)
    ∧ (e.hasSlot 1 = true →
        ((reverse e).slot 1).data 0 = (e.slot 1).data 0
        ∧ ((reverse e).slot 1).data 1 = -((e.slot 1).data 1)
        ∧ ((reverse e).slot 1).data 2 = -((e.slot 1).data 2)
        ∧ ((reverse e).slot 1).data 3 = -((e.slot 1).data 3))
    ∧ (e.hasSlot 2 = true →
        ((reverse e).slot 2).data 0 = (e.slot 2).data 0
        ∧ ((reverse e).slot 2).data 1 = -((e.slot 2).data 1)
        ∧ ((reverse e).slot 2).data 2 = -((e.slot 2).data 2)
        ∧ ((reverse e).slot 2).data 3 = -((e.slot 2).data 3))
    ∧ (e.hasSlot 3 = true →
        ((reverse e).slot 3).data 0 = -((e.slot 3).data 0)
        ∧ ((reverse e).slot 3).data 1 = -((e.slot 3).data 1)
        ∧ ((reverse e).slot 3).data 2 = -((e.slot 3).data 2)
        ∧ ((reverse e).slot 3).data 3 = -((e.slot 3).data 3))
    ∧ ((reverse e).hasSlot 0 = e.hasSlot 0
        ∧ (reverse e).hasSlot 1 = e.hasSlot 1
        ∧ (reverse e).hasSlot 2 = e.hasSlot 2
        ∧ (reverse e).hasSlot 3 = e.hasSlot 3) := by
  obtain ⟨M, l⟩ := e
  obtain ⟨hM, hlen⟩ := h
  simp only [entity.wf, partition_count] at hlen
  interval_cases M <;>
    rcases l with _ | ⟨a, _ | ⟨b, _ | ⟨c, _ | ⟨d, tl⟩⟩⟩⟩ <;>
    simp_all +decide [reverse, entity.slot, entity.hasSlot, entity.p1, entity.p2,
      entity.p3, partition_offsets, partition.data, mm_mul_ps, mm_set_ps,
      mm_set1_ps, part0, mul_neg_one]

/-- Witness for claim C4 at a concrete input: a full multivector-masked
entity; its well-formedness is discharged and the mask-preservation
conclusion of the theorem is produced. -/
theorem C4_witness :
    (⟨0b1111, [⟨1, 2, 3, 4⟩, ⟨5, 6, 7, 8⟩, ⟨9, 10, 11, 12⟩, ⟨13, 14, 15, 16⟩]⟩
        : entity).wf
    ∧ (reverse ⟨0b1111,
          [⟨1, 2, 3, 4⟩, ⟨5, 6, 7, 8⟩, ⟨9, 10, 11, 12⟩, ⟨13, 14, 15, 16⟩]⟩).pmask
        = (⟨0b1111,
            [⟨1, 2, 3, 4⟩, ⟨5, 6, 7, 8⟩, ⟨9, 10, 11, 12⟩, ⟨13, 14, 15, 16⟩]⟩
            : entity).pmask :=
  ⟨⟨by decide, by decide⟩,
   (C4_reverse_grades
      ⟨0b1111, [⟨1, 2, 3, 4⟩, ⟨5, 6, 7, 8⟩, ⟨9, 10, 11, 12⟩, ⟨13, 14, 15, 16⟩]⟩
      ⟨by decide, by decide⟩).1⟩

/-- Claim C5: reversion is an involution: for every well-formed entity A
of any mask, reversing twice recovers A exactly (same mask, same
materialized partitions). -/
theorem C5_reverse_involution (e : entity) (h : e.wf) :
    reverse (reverse e) = e := by
  obtain ⟨M, l⟩ := e
  obtain ⟨hM, hlen⟩ := h
  simp only [entity.wf, partition_count] at hlen
  interval_cases M <;>
    rcases l with _ | ⟨a, _ | ⟨b, _ | ⟨c, _ | ⟨d, tl⟩⟩⟩⟩ <;>
    simp_all +decide [reverse, entity.p1, entity.p2, entity.p3,
      partition_offsets, mm_mul_ps, mm_set_ps, mm_set1_ps, part0,
      mul_neg_one, neg_neg, mul_one]

/-- Witness for claim C5 at a concrete input: a motor-masked entity
(slots p1 and p2), with its well-formedness discharged. -/
theorem C5_witness :
    (⟨0b110, [⟨1, 2, 3, 4⟩, ⟨5, 6, 7, 8⟩]⟩ : entity).wf
    ∧ reverse (reverse ⟨0b110, [⟨1, 2, 3, 4⟩, ⟨5, 6, 7, 8⟩]⟩)
        = ⟨0b110, [⟨1, 2, 3, 4⟩, ⟨5, 6, 7, 8⟩]⟩ :=
  ⟨⟨by decide, by decide⟩,
   C5_reverse_involution ⟨0b110, [⟨1, 2, 3, 4⟩, ⟨5, 6, 7, 8⟩]⟩
     ⟨by decide, by decide⟩⟩

/-- Claim C6 evaluated at the failing input (the claim is right and the
code is wrong).  For receiver mask 0b11 (p0 and p1) and argument mask
0b10 (p1 only), the union mask equals the receiver mask, so the rvalue
overload takes its in-place path; but its receiver-side index offset
advances only on bits of the ARGUMENT mask, so the argument's p1
partition is added into the receiver's p0 storage slot: the in-place
path yields a different value than the const-lvalue overload, which adds
it into the p1 slot.  The fourth conjunct shows the delegation path
(union mask different from the receiver mask) agreeing with the
const-lvalue overload, as the claim states. -/
theorem C6_rvalue_inplace_divergence :
    add_sub_rvalue true ⟨0b11, [⟨1, 2, 3, 4⟩, ⟨5, 6, 7, 8⟩]⟩
        ⟨0b10, [⟨10, 20, 30, 40⟩]⟩
      = ⟨0b11, [⟨11, 22, 33, 44⟩, ⟨5, 6, 7, 8⟩]⟩
    ∧ add_sub true ⟨0b11, [⟨1, 2, 3, 4⟩, ⟨5, 6, 7, 8⟩]⟩
        ⟨0b10, [⟨10, 20, 30, 40⟩]⟩
      = ⟨0b11, [⟨1, 2, 3, 4⟩, ⟨15, 26, 37, 48⟩]⟩
    ∧ add_sub_rvalue true ⟨0b11, [⟨1, 2, 3, 4⟩, ⟨5, 6, 7, 8⟩]⟩
        ⟨0b10, [⟨10, 20, 30, 40⟩]⟩
      ≠ add_sub true ⟨0b11, [⟨1, 2, 3, 4⟩, ⟨5, 6, 7, 8⟩]⟩
        ⟨0b10, [⟨10, 20, 30, 40⟩]⟩
    ∧ add_sub_rvalue true ⟨0b1, [⟨1, 1, 1, 1⟩]⟩ ⟨0b1000, [⟨2, 2, 2, 2⟩]⟩
      = add_sub true ⟨0b1, [⟨1, 1, 1, 1⟩]⟩ ⟨0b1000, [⟨2, 2, 2, 2⟩]⟩ := by
  have h1 : add_sub_rvalue true ⟨0b11, [⟨1, 2, 3, 4⟩, ⟨5, 6, 7, 8⟩]⟩
      ⟨0b10, [⟨10, 20, 30, 40⟩]⟩
      = ⟨0b11, [⟨11, 22, 33, 44⟩, ⟨5, 6, 7, 8⟩]⟩ := by
    simp +decide [add_sub_rvalue, add_sub_rvalue_step, part0, mm_set1_ps,
      mm_add_ps]
    norm_num
  have h2 : add_sub true ⟨0b11, [⟨1, 2, 3, 4⟩, ⟨5, 6, 7, 8⟩]⟩
      ⟨0b10, [⟨10, 20, 30, 40⟩]⟩
      = ⟨0b11, [⟨1, 2, 3, 4⟩, ⟨15, 26, 37, 48⟩]⟩ := by
    simp +decide [add_sub, add_sub_step, part0, mm_set1_ps, mm_add_ps]
    norm_num
  refine ⟨h1, h2, ?_, ?_⟩
  · rw [h1, h2]
    decide
  · simp +decide [add_sub_rvalue]

/-- Claim C7: for every entity and every named coefficient accessor
(scalar, e0..e3, e12, e31, e23, e01, e02, e03, e123, e021, e013, e032,
e0123, and the flipped duals e21, e13, e32, e10, e20, e30), if the
coefficient's slot is not present in the entity's mask the accessor
returns exactly 0. -/
theorem C7_zero_for_absent (e : entity) :
    (e.hasSlot 0 = false →
      e.e0 = 0 ∧ e.e1 = 0 ∧ e.e2 = 0 ∧ e.e3 = 0)
    ∧ (e.hasSlot 1 = false →
      e.scalar = 0 ∧ e.e12 = 0 ∧ e.e21 = 0 ∧ e.e31 = 0 ∧ e.e13 = 0
        ∧ e.e23 = 0 ∧ e.e32 = 0)
    ∧ (e.hasSlot 2 = false →
      e.e01 = 0 ∧ e.e10 = 0 ∧ e.e02 = 0 ∧ e.e20 = 0 ∧ e.e03 = 0
        ∧ e.e30 = 0 ∧ e.e0123 = 0)
    ∧ (e.hasSlot 3 = false →
      e.e123 = 0 ∧ e.e021 = 0 ∧ e.e013 = 0 ∧ e.e032 = 0) := by
  refine ⟨fun h => ?_, fun h => ?_, fun h => ?_, fun h => ?_⟩ <;>
    simp +decide [entity.hasSlot, nz] at h <;>
    simp [entity.e0, entity.e1, entity.e2, entity.e3, entity.scalar,
      entity.e12, entity.e21, entity.e31, entity.e13, entity.e23, entity.e32,
      entity.e01, entity.e10, entity.e02, entity.e20, entity.e03, entity.e30,
      entity.e0123, entity.e123, entity.e021, entity.e013, entity.e032,
      nz, h]

/-- Witness for claim C7 at a concrete input: the empty-masked entity;
all four absence hypotheses are discharged and all accessors return 0. -/
theorem C7_witness :
    ((⟨0, []⟩ : entity).hasSlot 1 = false
      ∧ (⟨0, []⟩ : entity).scalar = 0 ∧ (⟨0, []⟩ : entity).e12 = 0)
    ∧ ((⟨0, []⟩ : entity).hasSlot 2 = false ∧ (⟨0, []⟩ : entity).e0123 = 0) :=
  ⟨⟨by decide, ((C7_zero_for_absent ⟨0, []⟩).2.1 (by decide)).1,
     ((C7_zero_for_absent ⟨0, []⟩).2.1 (by decide)).2.1⟩,
   ⟨by decide, ((C7_zero_for_absent ⟨0, []⟩).2.2.1 (by decide)).2.2.2.2.2.2⟩⟩

/-- Claim C8: for every entity, each flipped accessor of an
antisymmetric dual pair returns the negation of the base accessor:
e21 is -e12, e13 is -e31, e32 is -e23, e10 is -e01, e20 is -e02,
e30 is -e03 (this holds whether or not the slot is materialized; when it
is absent both sides are 0, so in particular it holds for every entity
exposing both members of the pair). -/
theorem C8_antisymmetric_duals (e : entity) :
    e.e21 = -e.e12 ∧ e.e13 = -e.e31 ∧ e.e32 = -e.e23
    ∧ e.e10 = -e.e01 ∧ e.e20 = -e.e02 ∧ e.e30 = -e.e03 := by
  by_cases h1 : nz (e.pmask &&& 0b10) = true <;>
    by_cases h2 : nz (e.pmask &&& 0b100) = true <;>
    simp [entity.e21, entity.e12, entity.e13, entity.e31, entity.e32,
      entity.e23, entity.e10, entity.e01, entity.e20, entity.e02,
      entity.e30, entity.e03, h1, h2]

/-- Claim C9: converting a general p3-only entity to a direction
succeeds unconditionally (the conversion is a plain copy of the entity,
with no failure path) in non-validated builds; the PRSTAR_VALIDATE
assert accepts exactly when the homogeneous lane (lane 0 of p3) is
strictly within 1e-7 of zero, so a validated build aborts exactly when
that lane lies at or outside that bound. -/
theorem C9_direction_conversion (e : entity) (h : e.pmask = 0b1000) :
    direction_of_entity e = e
    ∧ (direction_validate_ok e = false
        ↔ (1 / 10000000 ≤ (e.parts.getD 0 part0).data 0
            ∨ (e.parts.getD 0 part0).data 0 ≤ -(1 / 10000000))) := by
  constructor
  · obtain ⟨M, l⟩ := e
    subst h
    rfl
  · unfold direction_validate_ok
    rw [Bool.and_eq_false_iff]
    simp only [decide_eq_false_iff_not, not_lt, gt_iff_lt]

/-- Witness for claim C9 at a concrete input: a p3-only entity whose
homogeneous lane is 1 (an ordinary finite point), which the validated
build rejects. -/
theorem C9_witness :
    (⟨0b1000, [⟨1, 2, 3, 4⟩]⟩ : entity).pmask = 0b1000
    ∧ direction_of_entity ⟨0b1000, [⟨1, 2, 3, 4⟩]⟩ = ⟨0b1000, [⟨1, 2, 3, 4⟩]⟩
    ∧ direction_validate_ok ⟨0b1000, [⟨1, 2, 3, 4⟩]⟩ = false :=
  ⟨rfl, (C9_direction_conversion ⟨0b1000, [⟨1, 2, 3, 4⟩]⟩ rfl).1,
   ((C9_direction_conversion ⟨0b1000, [⟨1, 2, 3, 4⟩]⟩ rfl).2).mpr
     (Or.inl (by norm_num [partition.data]))⟩

/-- Claim C10: the direction subscript operator indexes coordinates in
geometric (x, y, z) order, the reverse of the stored lane order: for
every direction d and index i below 4, d[i] reads lane 3-i of its
partition; and for d constructed as direction(x, y, z), d[0] is x and
equals x(), d[1] is y and equals y(), d[2] is z and equals z(), and d[3]
is the homogeneous lane (lane 0), which this constructor sets to 0. -/
theorem C10_direction_subscript :
    (∀ (d : entity) (i : Nat), i < 4 →
        direction_subscript d i = (d.parts.getD 0 part0).data (3 - i))
    ∧ ∀ x y z : ℚ,
        direction_subscript (direction_mk3 x y z) 0 = x
        ∧ direction_subscript (direction_mk3 x y z) 0
            = direction_x (direction_mk3 x y z)
        ∧ direction_subscript (direction_mk3 x y z) 1 = y
        ∧ direction_subscript (direction_mk3 x y z) 1
            = direction_y (direction_mk3 x y z)
        ∧ direction_subscript (direction_mk3 x y z) 2 = z
        ∧ direction_subscript (direction_mk3 x y z) 2
            = direction_z (direction_mk3 x y z)
        ∧ direction_subscript (direction_mk3 x y z) 3
            = ((direction_mk3 x y z).parts.getD 0 part0).data 0
        ∧ direction_subscript (direction_mk3 x y z) 3 = 0 :=
  ⟨fun _ _ _ => rfl,
   fun _ _ _ => ⟨rfl, rfl, rfl, rfl, rfl, rfl, rfl, rfl⟩⟩

/-- Witness for claim C10 at a concrete input: the subscript read of a
concrete direction at index 1, with the index bound discharged. -/
theorem C10_witness :
    (1 : Nat) < 4
    ∧ direction_subscript ⟨0b1000, [⟨7, 8, 9, 10⟩]⟩ 1
        = ((⟨0b1000, [⟨7, 8, 9, 10⟩]⟩ : entity).parts.getD 0 part0).data (3 - 1) :=
  ⟨by norm_num, (C10_direction_subscript).1 ⟨0b1000, [⟨7, 8, 9, 10⟩]⟩ 1 (by norm_num)⟩

end prs
